import Mathlib

/-!
Verification development for the dlna-sharing streaming core
(`streaming.py`, `dlna_sharing.py`).

Python strings are modelled as `List Char`; the regular-expression
searches of the source are modelled by explicit leftmost-occurrence
search functions; network and filesystem effects are modelled by
explicit oracles and event logs.
-/

namespace DlnaSharing

/-- Python strings are modelled as lists of characters. -/
abbrev Str := List Char

/-- ASCII lowering, modelling `re.IGNORECASE` literal matching. -/
def lowerStr (s : Str) : Str := s.map Char.toLower

/-- Index of the first occurrence of `needle` as a contiguous sublist of
`hay` (leftmost match position of a literal pattern). -/
def findFrom (needle : Str) : Str → Option Nat
  | [] => if needle = [] then some 0 else none
  | c :: rest =>
    if needle.isPrefixOf (c :: rest) then some 0
    else (findFrom needle rest).map (· + 1)

namespace DLNAControlPoint

/-- Literal prefix matched by the `_fetch_control_url` regular expression
(lowered, since the search is case-insensitive):
`<serviceType>urn:schemas-upnp-org:service:AVTransport:`. -/
def avLit : Str := ("<servicetype>urn:schemas-upnp-org:service:avtransport:").toList

/-- Lowered closing tag `</serviceType>`. -/
def closeServiceTypeLit : Str := ("</servicetype>").toList

/-- Lowered opening tag `<controlURL>`. -/
def openControlLit : Str := ("<controlurl>").toList

/-- Lowered closing tag `</controlURL>`. -/
def closeControlLit : Str := ("</controlurl>").toList

/-- Position just past the first occurrence of `lit` in `low` that starts at
index `base` or later (`none` when there is no such occurrence).  This is how
a lazy `.*?lit` step of a regular expression advances the match position. -/
def chainFind (lit : Str) (low : Str) (base : Nat) : Option Nat :=
  (findFrom lit (low.drop base)).map (fun j => base + j + lit.length)

/-- Model of the `re.search` in `DLNAControlPoint._fetch_control_url`
(`streaming.py`), pattern
`<serviceType>urn:schemas-upnp-org:service:AVTransport:.*?</serviceType>.*?<controlURL>(.*?)</controlURL>`
with `re.DOTALL | re.IGNORECASE`.  Returns the start index and length of
group 1.  The leftmost match of this pattern starts at the first occurrence
of the literal prefix, and the lazy gaps take the first occurrence of each
subsequent literal (with `DOTALL` the gaps are unrestricted, so the first
occurrence of the literal prefix decides the whole match). -/
def fetch_control_url_span (doc : Str) : Option (Nat × Nat) :=
  (findFrom avLit (lowerStr doc)).bind fun i =>
    (chainFind closeServiceTypeLit (lowerStr doc) (i + avLit.length)).bind
      fun p2 =>
        (chainFind openControlLit (lowerStr doc) p2).bind fun p3 =>
          (findFrom closeControlLit ((lowerStr doc).drop p3)).map fun l =>
            (p3, l)

/-- Group 1 of the `_fetch_control_url` regular expression: the control path
extracted from the device-description document (`None` when the pattern
does not match). -/
def fetch_control_url (doc : Str) : Option Str :=
  (fetch_control_url_span doc).map (fun p => (doc.drop p.1).take p.2)

/-- `"http-get:*:video/mp2t:*"`, the protocol info chosen in
`set_av_transport_uri` for URLs ending in `.ts`. -/
def tsProtocolInfo : Str := ("http-get:*:video/mp2t:*").toList

/-- `"http-get:*:application/vnd.apple.mpegurl:*"`, the protocol info chosen
in `set_av_transport_uri` for all other URLs (the HLS case). -/
def hlsProtocolInfo : Str := ("http-get:*:application/vnd.apple.mpegurl:*").toList

/-- `".ts"` as a character list. -/
def tsSuffix : Str := (".ts").toList

/-- `".m3u8"` as a character list. -/
def m3u8Suffix : Str := (".m3u8").toList

/-- `stream_url.endswith('.ts')` dispatch of `set_av_transport_uri`. -/
def protocolInfoFor (stream_url : Str) : Str :=
  if tsSuffix.isSuffixOf stream_url then tsProtocolInfo else hlsProtocolInfo

/-- The DIDL-Lite metadata template of `set_av_transport_uri` up to the
first `{}` placeholder (the template is written with `&lt;`/`&gt;`
entities in the source). -/
def metaPre : Str :=
  ("&lt;DIDL-Lite xmlns=\"urn:schemas-upnp-org:metadata-1-0/DIDL-Lite/\"\nxmlns:dc=\"http://purl.org/dc/elements/1.1/\"\nxmlns:upnp=\"urn:schemas-upnp-org:metadata-1-0/upnp/\"&gt;\n&lt;item id=\"0\" parentID=\"-1\" restricted=\"1\"&gt;\n&lt;dc:title&gt;Screen Share&lt;/dc:title&gt;\n&lt;res protocolInfo=\"").toList

/-- The metadata template between the two `{}` placeholders. -/
def metaMid : Str := ("\"&gt;").toList

/-- The metadata template after the second `{}` placeholder. -/
def metaSuf : Str :=
  ("&lt;/res&gt;\n&lt;upnp:class&gt;object.item.videoItem&lt;/upnp:class&gt;\n&lt;/item&gt;\n&lt;/DIDL-Lite&gt;").toList

/-- `metadata = template.format(protocol_info, stream_url)` in
`set_av_transport_uri`: the two values are interpolated verbatim. -/
def buildMetadata (protocol_info stream_url : Str) : Str :=
  metaPre ++ protocol_info ++ metaMid ++ stream_url ++ metaSuf

/-- `args_xml = ''.join(f'<{k}>{v}</{k}>' for k, v in arguments.items())` in
`_send_soap_request`: keys and values are interpolated verbatim. -/
def buildArgsXml : List (Str × Str) → Str
  | [] => []
  | (k, v) :: rest =>
    ("<").toList ++ k ++ (">").toList ++ v ++ ("</").toList ++ k ++ (">").toList
      ++ buildArgsXml rest

/-- SOAP envelope template of `_send_soap_request` up to the first
`{action}` interpolation. -/
def soapPre : Str :=
  ("<?xml version=\"1.0\"?>\n<s:Envelope xmlns:s=\"http://schemas.xmlsoap.org/soap/envelope/\"\n            s:encodingStyle=\"http://schemas.xmlsoap.org/soap/encoding/\">\n  <s:Body>\n    <u:").toList

/-- SOAP envelope template between the first `{action}` and `{args_xml}`. -/
def soapMid1 : Str :=
  (" xmlns:u=\"urn:schemas-upnp-org:service:AVTransport:1\">\n      <InstanceID>0</InstanceID>\n      ").toList

/-- SOAP envelope template between `{args_xml}` and the second `{action}`. -/
def soapMid2 : Str := ("\n    </u:").toList

/-- SOAP envelope template after the second `{action}`. -/
def soapSuf : Str := (">\n  </s:Body>\n</s:Envelope>").toList

/-- `soap_body` f-string of `_send_soap_request`. -/
def buildSoapBody (action : Str) (arguments : List (Str × Str)) : Str :=
  soapPre ++ action ++ soapMid1 ++ buildArgsXml arguments ++ soapMid2
    ++ action ++ soapSuf

/-- Outcome of a control action: the returned boolean together with the
number of HTTP requests issued while performing it. -/
structure SoapOutcome where
  ok : Bool
  networkCalls : Nat
deriving DecidableEq, Repr

/-- Model of `DLNAControlPoint._send_soap_request`.  `control_url` is the
cached endpoint (`None` in Python is `none`; Python additionally treats an
empty string as falsy, hence the emptiness test).  `post` is the network
oracle: applied to the control URL and the SOAP body it returns either the
HTTP status code or a transport error (`requests.post` raising).  The
source catches every exception and returns `False`, and otherwise returns
`response.status_code == 200`. -/
def send_soap_request (control_url : Option Str) (action : Str)
    (arguments : List (Str × Str)) (post : Str → Str → Except Unit Nat) :
    SoapOutcome :=
  match control_url with
  | none => ⟨false, 0⟩
  | some url =>
    if url.isEmpty then ⟨false, 0⟩
    else
      match post url (buildSoapBody action arguments) with
      | .ok status => ⟨status == 200, 1⟩
      | .error _ => ⟨false, 1⟩

/-- The two arguments of the `SetAVTransportURI` action as built by
`set_av_transport_uri`. -/
def setAvArguments (stream_url : Str) : List (Str × Str) :=
  [(("CurrentURI").toList, stream_url),
   (("CurrentURIMetaData").toList,
    buildMetadata (protocolInfoFor stream_url) stream_url)]

/-- Model of `DLNAControlPoint.set_av_transport_uri`. -/
def set_av_transport_uri (control_url : Option Str) (stream_url : Str)
    (post : Str → Str → Except Unit Nat) : SoapOutcome :=
  send_soap_request control_url (("SetAVTransportURI").toList)
    (setAvArguments stream_url) post

/-- Model of `DLNAControlPoint.play`. -/
def play (control_url : Option Str) (post : Str → Str → Except Unit Nat) :
    SoapOutcome :=
  send_soap_request control_url (("Play").toList)
    [(("Speed").toList, ("1").toList)] post

/-- Model of `DLNAControlPoint.stop`. -/
def stop (control_url : Option Str) (post : Str → Str → Except Unit Nat) :
    SoapOutcome :=
  send_soap_request control_url (("Stop").toList) [] post

end DLNAControlPoint

namespace HLSStreamer

/-- The encoder child process, reduced to whether it is still alive
(termination has not been requested). -/
structure Proc where
  alive : Bool
deriving DecidableEq, Repr

/-- The mutable fields of `HLSStreamer` that the claims are about.  Threads
are modelled by opaque handles (`Option Nat`). -/
structure State where
  fps : Nat
  port : Nat
  running : Bool
  ffmpeg_process : Option Proc
  server_thread : Option Nat
  capture_thread : Option Nat
  use_mpegts : Bool
deriving DecidableEq, Repr

/-- `f.glob("*.ts")` membership: the file name ends in `.ts`. -/
def matchesTs (f : Str) : Bool := DLNAControlPoint.tsSuffix.isSuffixOf f

/-- `f.glob("*.m3u8")` membership: the file name ends in `.m3u8`. -/
def matchesM3u8 (f : Str) : Bool := DLNAControlPoint.m3u8Suffix.isSuffixOf f

/-- The two cleanup loops of `HLSStreamer.__init__` and `HLSStreamer.stop`:
unlink every `*.ts` and every `*.m3u8` file of the output directory.  The
directory is modelled as the list of file names it contains. -/
def cleanupSegments (fs : List Str) : List Str :=
  fs.filter (fun f => !(matchesTs f || matchesM3u8 f))

/-- Model of `HLSStreamer.__init__`: all flags and handles start unset and
the pre-existing `*.ts`/`*.m3u8` files are deleted.  Returns the fresh
streamer and the output directory after cleanup. -/
def init (fs : List Str) (fps port : Nat) (use_mpegts : Bool) :
    State × List Str :=
  (⟨fps, port, false, none, none, none, use_mpegts⟩, cleanupSegments fs)

/-- Side effects of `HLSStreamer.start`, in program order. -/
inductive StartEv where
  | serverThreadStart
  | ffmpegSpawn
  | captureThreadStart
deriving DecidableEq, Repr

/-- Model of `HLSStreamer.start`: `if self.running: return` guards the whole
body; otherwise the Flask server thread, the FFmpeg child and the capture
thread are started (the body never touches the output directory, which is
therefore passed through unchanged). -/
def start (st : State) (fs : List Str) : State × List Str × List StartEv :=
  if st.running then (st, fs, [])
  else
    ({ st with
        running := true
        server_thread := some 1
        ffmpeg_process := some ⟨true⟩
        capture_thread := some 1 },
     fs,
     [StartEv.serverThreadStart, StartEv.ffmpegSpawn,
      StartEv.captureThreadStart])

/-- Model of `HLSStreamer.stop`: clear `running`; if an encoder child handle
exists, close its stdin, terminate it and wait (all exceptions swallowed by
the bare `except`, so the call never raises; the handle itself is kept, only
the child is no longer alive); finally delete every `*.ts` and `*.m3u8`
file. -/
def stop (st : State) (fs : List Str) : State × List Str :=
  ({ st with
      running := false
      ffmpeg_process := st.ffmpeg_process.map (fun _ => ⟨false⟩) },
   cleanupSegments fs)

/-- A streaming session as started by `StreamingScreen.start_streaming`
(`dlna_sharing.py`): construct the streamer (which performs the cleanup)
and immediately call `start` (which spawns the encoder).  Nothing between
the cleanup and the spawn writes to the output directory. -/
def sessionStart (fs : List Str) (fps port : Nat) (use_mpegts : Bool) :
    State × List Str × List StartEv :=
  let (st, fs1) := init fs fps port use_mpegts
  start st fs1

end HLSStreamer

namespace SegmentServer

/-- An HTTP response of the Flask segment server: status, body, and the
headers explicitly set by the route. -/
structure HttpResponse where
  status : Nat
  body : Str
  headers : List (Str × Str)
deriving DecidableEq, Repr

/-- Headers attached to a `.ts` response by `serve_hls`. -/
def tsHeaders : List (Str × Str) :=
  [(("Content-Type").toList, ("video/mp2t").toList),
   (("Transfer-Encoding").toList, ("chunked").toList),
   (("Cache-Control").toList, ("no-cache").toList),
   (("Access-Control-Allow-Origin").toList, ("*").toList),
   (("transferMode.dlna.org").toList, ("Streaming").toList)]

/-- Headers attached to a `.m3u8` response by `serve_hls`. -/
def m3u8Headers : List (Str × Str) :=
  [(("Content-Type").toList, ("application/vnd.apple.mpegurl").toList),
   (("Cache-Control").toList, ("no-cache").toList),
   (("Access-Control-Allow-Origin").toList, ("*").toList),
   (("transferMode.dlna.org").toList, ("Streaming").toList)]

/-- Headers attached to other successful `serve_hls` responses. -/
def plainHeaders : List (Str × Str) :=
  [(("Access-Control-Allow-Origin").toList, ("*").toList),
   (("transferMode.dlna.org").toList, ("Streaming").toList)]

/-- Model of the `serve_hls` Flask route of `HLSStreamer.__init__`.  The
output directory is the association list `files` from file name to content.

For a `filename` ending in `.ts` the route returns a streaming `Response`
whose generator reads the file in 8 KB chunks inside a `try`/`except`; when
the file does not exist, `open` raises inside the generator, the `except`
prints and ends the generator, and Flask has already committed status 200 —
the client receives 200 with an empty body.  For other file names
`send_from_directory` is used, which raises `NotFound` for a missing file;
Flask turns that into its standard 404 page (the header-adding lines after
it never run). -/
def serve_hls (files : List (Str × Str)) (filename : Str) : HttpResponse :=
  if HLSStreamer.matchesTs filename then
    match files.lookup filename with
    | some content => ⟨200, content, tsHeaders⟩
    | none => ⟨200, [], tsHeaders⟩
  else
    match files.lookup filename with
    | some content =>
      ⟨200, content,
        if HLSStreamer.matchesM3u8 filename then m3u8Headers
        else plainHeaders⟩
    | none => ⟨404, ("404 Not Found").toList, []⟩

end SegmentServer

namespace Discovery

/-- ASCII characters matched by the regular-expression class `\s`. -/
def isPySpace (c : Char) : Bool :=
  c = ' ' || c = '\t' || c = '\n' || c = '\r' || c = '\x0b' || c = '\x0c'

/-- Characters matched by the class `[\r\n]`. -/
def isCrLf (c : Char) : Bool := c = '\r' || c = '\n'

/-- One backtracking attempt of the regular-expression tail `\s*(.+?)[\r\n]`
with the greedy `\s*` fixed to consume `w` characters of `s`: the lazy group
takes the minimal run of one or more non-`\n` characters (`.` does not match
`\n`) followed by a `\r` or `\n`.  Returns group 1. -/
def lazyLineAt (w : Nat) (s : Str) : Option Str :=
  match s.drop w with
  | [] => none
  | c :: ct =>
    if c = '\n' then none
    else
      match ct.findIdx? isCrLf with
      | none => none
      | some m => some ((c :: ct).take (m + 1))

/-- Backtracking over the greedy `\s*`: try the longest whitespace run
first, then shorter ones, as the regular-expression engine does. -/
def lazyLineFrom : Nat → Str → Option Str
  | 0, s => lazyLineAt 0 s
  | w + 1, s =>
    match lazyLineAt (w + 1) s with
    | some g => some g
    | none => lazyLineFrom w s

/-- Match of the regular-expression tail `\s*(.+?)[\r\n]` against the text
`s` that follows the header literal. -/
def lazyLine (s : Str) : Option Str :=
  lazyLineFrom (s.takeWhile isPySpace).length s

/-- Model of `re.search(lit + r':\s*(.+?)[\r\n]', response, re.IGNORECASE)`
group 1: try every position of the datagram from the left; at each position
where the (lowered) header literal occurs, attempt the tail; the first
position whose tail succeeds is the leftmost match. -/
def searchHeaderVal (lit : Str) : Str → Option Str
  | [] => none
  | c :: rest =>
    if lit.isPrefixOf (lowerStr (c :: rest)) then
      match lazyLine ((c :: rest).drop lit.length) with
      | some g => some g
      | none => searchHeaderVal lit rest
    else searchHeaderVal lit rest

/-- `str.strip()`: remove leading and trailing whitespace. -/
def pyStrip (s : Str) : Str :=
  ((s.dropWhile isPySpace).reverse.dropWhile isPySpace).reverse

/-- Lowered literal `LOCATION:` of the location-header search. -/
def locationLit : Str := ("location:").toList

/-- Lowered literal `SERVER:` of the server-header search. -/
def serverLit : Str := ("server:").toList

/-- The location a datagram carries: group 1 of the `LOCATION` search,
stripped — exactly the string the discovery loop deduplicates on. -/
def parsedLocation (response : Str) : Option Str :=
  (searchHeaderVal locationLit response).map pyStrip

/-- Model of `re.search(r'<tag>(.+?)</tag>', text, re.IGNORECASE|re.DOTALL)`
group 1, for the `friendlyName` and `modelName` extractions: first
occurrence of the (lowered) opening literal whose closing literal occurs at
least one character later (the group is non-empty). -/
def extractTag (openLit closeLit : Str) (text : Str) : Option Str :=
  let low := lowerStr text
  match findFrom openLit low with
  | none => none
  | some i =>
    let cs := i + openLit.length
    match findFrom closeLit (low.drop (cs + 1)) with
    | none => none
    | some l => some ((text.drop cs).take (l + 1))

/-- Friendly-name resolution of `discover_dlna_devices`: fetch the
description document (the oracle `fetchDesc` returns `none` when
`requests.get` raises), extract `<friendlyName>`, fall back to
`<modelName>`, fall back to `f"Device at {addr[0]}"`. -/
def resolveName (fetchDesc : Str → Option Str) (location addr : Str) : Str :=
  match fetchDesc location with
  | none => ("Device at ").toList ++ addr
  | some text =>
    match extractTag (("<friendlyname>").toList) (("</friendlyname>").toList)
        text with
    | some n => pyStrip n
    | none =>
      match extractTag (("<modelname>").toList) (("</modelname>").toList)
          text with
      | some m => pyStrip m
      | none => ("Device at ").toList ++ addr

/-- `DLNADevice` of `dlna_sharing.py`. -/
structure DLNADevice where
  name : Str
  location : Str
  server : Str
deriving DecidableEq, Repr

/-- Observable state of one discovery run: the device list, the
`seen_locations` set, the number of description fetches issued, and the
log of `callback` invocations (the device each call received). -/
structure RunState where
  devices : List DLNADevice
  seen_locations : List Str
  fetchCount : Nat
  callbackCalls : List DLNADevice
deriving DecidableEq, Repr

/-- Body of the receive loop of `discover_dlna_devices` for one datagram
`(data, addr)`: parse the `LOCATION` header (discard the datagram if it has
none); skip the datagram if the location was already seen — before any
description fetch or callback; otherwise record the location, fetch the
description to resolve a name, parse the `SERVER` header, append the device
and invoke the callback. -/
def process_datagram (fetchDesc : Str → Option Str) (st : RunState)
    (datagram : Str × Str) : RunState :=
  match parsedLocation datagram.1 with
  | none => st
  | some location =>
    if location ∈ st.seen_locations then st
    else
      let server :=
        match searchHeaderVal serverLit datagram.1 with
        | some s => pyStrip s
        | none => ("Unknown").toList
      let name := resolveName fetchDesc location datagram.2
      let device : DLNADevice := ⟨name, location, server⟩
      { devices := st.devices ++ [device]
        seen_locations := location :: st.seen_locations
        fetchCount := st.fetchCount + 1
        callbackCalls := st.callbackCalls ++ [device] }

/-- Model of `discover_dlna_devices`: fold the receive-loop body over the
sequence of datagrams received within the timeout, starting from the empty
state. -/
def discover_dlna_devices (fetchDesc : Str → Option Str)
    (datagrams : List (Str × Str)) : RunState :=
  datagrams.foldl (process_datagram fetchDesc) ⟨[], [], 0, []⟩

end Discovery

namespace Fixtures

/-- A device-description document whose AVTransport service block lists its
`<controlURL>` (`/av`) before its `<serviceType>`, followed by a
ConnectionManager service block with its own `<controlURL>` (`/cm`). -/
def c1doc : Str :=
  ("<root><service><controlURL>/av</controlURL><serviceType>urn:schemas-upnp-org:service:AVTransport:1</serviceType></service><service><serviceType>urn:schemas-upnp-org:service:ConnectionManager:1</serviceType><controlURL>/cm</controlURL></service></root>").toList

/-- A device-description document in the standard UPnP element order: a
RenderingControl service block (control path `/rc`) followed by the
AVTransport service block (control path `/avctl`). -/
def c1std : Str :=
  ("<root><service><serviceType>urn:schemas-upnp-org:service:RenderingControl:1</serviceType><controlURL>/rc</controlURL></service><service><serviceType>urn:schemas-upnp-org:service:AVTransport:1</serviceType><controlURL>/avctl</controlURL></service></root>").toList

/-- A stream URL containing XML-special characters, ending in `.ts`. -/
def evilUrl : Str := ("http://h/<evil>.ts").toList

/-- A resolved control endpoint URL. -/
def url0 : Str := ("http://10.0.0.9:49152/AVTransport/ctrl").toList

/-- An SSDP response datagram with a `LOCATION` and a `SERVER` header. -/
def dg1 : Str :=
  ("HTTP/1.1 200 OK\r\nCACHE-CONTROL: max-age=1800\r\nLOCATION: http://10.0.0.9:49152/desc.xml\r\nSERVER: Linux UPnP/1.0 Sonos\r\nST: ssdp:all\r\n\r\n").toList

/-- A second SSDP response datagram carrying the same `LOCATION` value with
different header formatting. -/
def dg2 : Str :=
  ("HTTP/1.1 200 OK\r\nlocation:http://10.0.0.9:49152/desc.xml\nST: upnp:rootdevice\r\n\r\n").toList

/-- The location both datagrams carry. -/
def loc0 : Str := ("http://10.0.0.9:49152/desc.xml").toList

/-- Sender address of the synthetic datagrams. -/
def addr0 : Str := ("10.0.0.9").toList

/-- A description-fetch oracle for which every fetch fails. -/
def fetchNone : Str → Option Str := fun _ => none

/-- A streamer whose `running` flag is set. -/
def runningStreamer : HLSStreamer.State :=
  ⟨30, 5000, true, some ⟨true⟩, some 1, some 1, false⟩

/-- A URL ending in `.ts`. -/
def urlTs : Str := ("http://host/stream.ts").toList

/-- A URL ending in `.m3u8`. -/
def urlM3u8 : Str := ("http://host/stream.m3u8").toList

end Fixtures

/-! ## Helper lemmas -/

/-- A `chainFind` result never precedes its base position. -/
theorem chainFind_le {lit low : Str} {base r : Nat}
    (h : DLNAControlPoint.chainFind lit low base = some r) : base ≤ r := by
  unfold DLNAControlPoint.chainFind at h
  cases h2 : findFrom lit (low.drop base) with
  | none => rw [h2] at h; simp at h
  | some j => rw [h2] at h; simp at h; omega

/-- A string ending in `.m3u8` does not end in `.ts`. -/
theorem m3u8_not_ts {u : Str}
    (h : DLNAControlPoint.m3u8Suffix.isSuffixOf u = true) :
    DLNAControlPoint.tsSuffix.isSuffixOf u = false := by
  simp only [List.isSuffixOf] at h ⊢
  have e1 : DLNAControlPoint.m3u8Suffix.reverse
      = '8' :: 'u' :: '3' :: 'm' :: '.' :: [] := by decide
  have e2 : DLNAControlPoint.tsSuffix.reverse
      = 's' :: 't' :: '.' :: [] := by decide
  rw [e1] at h
  rw [e2]
  cases hr : u.reverse with
  | nil => rw [hr] at h; simp [List.isPrefixOf] at h
  | cons c cs =>
    rw [hr] at h
    simp only [List.isPrefixOf, Bool.and_eq_true, beq_iff_eq] at h
    simp only [List.isPrefixOf, Bool.and_eq_false_iff]
    left
    simp [← h.1]

/-- Deleting the `*.ts`/`*.m3u8` files leaves no `*.ts`/`*.m3u8` file. -/
theorem cleanup_no_matches (fs : List Str) :
    (HLSStreamer.cleanupSegments fs).filter
      (fun f => HLSStreamer.matchesTs f || HLSStreamer.matchesM3u8 f) = [] := by
  unfold HLSStreamer.cleanupSegments
  rw [List.filter_filter]
  simp
  intro a _ h1 h2
  rcases h1 with h1 | h1
  · rw [h1] at h2
    simp at h2
  · exact h1

/-- The cleanup of `HLSStreamer.stop` is idempotent. -/
theorem cleanup_idem (fs : List Str) :
    HLSStreamer.cleanupSegments (HLSStreamer.cleanupSegments fs)
      = HLSStreamer.cleanupSegments fs := by
  unfold HLSStreamer.cleanupSegments
  rw [List.filter_filter]
  simp

/-- A datagram whose location was already seen leaves the run state
untouched. -/
theorem process_datagram_seen (fetchDesc : Str → Option Str)
    (st : Discovery.RunState) (d : Str × Str) (loc : Str)
    (h1 : Discovery.parsedLocation d.1 = some loc)
    (h2 : loc ∈ st.seen_locations) :
    Discovery.process_datagram fetchDesc st d = st := by
  unfold Discovery.process_datagram
  rw [h1]
  simp [h2]

/-- Folding the receive loop over datagrams that all carry an
already-seen location leaves the run state untouched. -/
theorem foldl_seen (fetchDesc : Str → Option Str) (loc : Str) :
    ∀ (l : List (Str × Str)) (st : Discovery.RunState),
      loc ∈ st.seen_locations →
      (∀ d ∈ l, Discovery.parsedLocation d.1 = some loc) →
      l.foldl (Discovery.process_datagram fetchDesc) st = st := by
  intro l
  induction l with
  | nil => intro st _ _; rfl
  | cons e es ih =>
    intro st hmem hall
    rw [List.foldl_cons,
      process_datagram_seen fetchDesc st e loc (hall e (by simp)) hmem]
    exact ih st hmem (fun d hd => hall d (by simp [hd]))

/-! ## Claims -/

/-- C2: with the control endpoint unset, `play()`, `stop()` and
`set_av_transport_uri(...)` all return `False` and issue zero network
requests, for every network oracle and every stream URL. -/
theorem claim_C2 : ∀ (post : Str → Str → Except Unit Nat) (stream_url : Str),
    DLNAControlPoint.play none post = ⟨false, 0⟩ ∧
    DLNAControlPoint.stop none post = ⟨false, 0⟩ ∧
    DLNAControlPoint.set_av_transport_uri none stream_url post
      = ⟨false, 0⟩ := by
  intro post stream_url
  exact ⟨rfl, rfl, rfl⟩

set_option maxRecDepth 40000 in
/-- C5 counterexample: the claim that the embedded metadata is XML-escaped
is false.  For the concrete stream URL `http://h/<evil>.ts` the DIDL-Lite
metadata contains a raw `<` character, the SOAP envelope of the
`SetAVTransportURI` action contains the URL substring `<evil>` verbatim
(at index 309), and the escaped form `&lt;evil&gt;` occurs nowhere in the
envelope: the URL is interpolated without escaping and alters the XML
structure. -/
theorem claim_C5_counterexample :
    '<' ∈ DLNAControlPoint.buildMetadata
        (DLNAControlPoint.protocolInfoFor Fixtures.evilUrl)
        Fixtures.evilUrl ∧
    findFrom (("<evil>").toList)
        (DLNAControlPoint.buildSoapBody (("SetAVTransportURI").toList)
          (DLNAControlPoint.setAvArguments Fixtures.evilUrl)) = some 309 ∧
    findFrom (("&lt;evil&gt;").toList)
        (DLNAControlPoint.buildSoapBody (("SetAVTransportURI").toList)
          (DLNAControlPoint.setAvArguments Fixtures.evilUrl)) = none := by
  decide

/-- C5 (amended): the DIDL-Lite template itself is fully entity-escaped —
it contributes no raw `<` or `>` — but the protocol info and the stream
URL are interpolated verbatim: the metadata contains a raw `<` (resp. `>`)
exactly when one of the two interpolated values does. -/
theorem claim_C5 : ∀ (protocol_info stream_url : Str),
    ('<' ∈ DLNAControlPoint.buildMetadata protocol_info stream_url ↔
      '<' ∈ protocol_info ∨ '<' ∈ stream_url) ∧
    ('>' ∈ DLNAControlPoint.buildMetadata protocol_info stream_url ↔
      '>' ∈ protocol_info ∨ '>' ∈ stream_url) := by
  intro protocol_info stream_url
  have h1 : '<' ∉ DLNAControlPoint.metaPre := by decide
  have h2 : '<' ∉ DLNAControlPoint.metaMid := by decide
  have h3 : '<' ∉ DLNAControlPoint.metaSuf := by decide
  have h4 : '>' ∉ DLNAControlPoint.metaPre := by decide
  have h5 : '>' ∉ DLNAControlPoint.metaMid := by decide
  have h6 : '>' ∉ DLNAControlPoint.metaSuf := by decide
  constructor
  · simp [DLNAControlPoint.buildMetadata, List.mem_append, h1, h2, h3]
  · simp [DLNAControlPoint.buildMetadata, List.mem_append, h4, h5, h6]

/-- C6 counterexample: the claim that a SOAP action succeeds for every
successful 2xx status is false.  With a network oracle answering HTTP 204
(a success status), the action returns `False` (after exactly one
request): the source tests `status_code == 200` only. -/
theorem claim_C6_counterexample :
    DLNAControlPoint.send_soap_request (some Fixtures.url0) (("Play").toList)
      [((("Speed").toList), (("1").toList))] (fun _ _ => .ok 204)
      = ⟨false, 1⟩ := by
  decide

/-- C6 (amended): a SOAP action sent to a resolved (non-empty) control
endpoint returns `True` iff the HTTP response status is exactly `200`; a
transport error or any other status — including other 2xx statuses —
yields `False`, and exactly one request is issued.  (The source wraps the
request in `try`/`except`, so no exception reaches the caller; the model
is accordingly a total function.) -/
theorem claim_C6 : ∀ (url action : Str) (arguments : List (Str × Str))
    (post : Str → Str → Except Unit Nat), url ≠ [] →
    ((DLNAControlPoint.send_soap_request (some url) action arguments
        post).ok = true ↔
      post url (DLNAControlPoint.buildSoapBody action arguments)
        = .ok 200) ∧
    (DLNAControlPoint.send_soap_request (some url) action arguments
        post).networkCalls = 1 := by
  intro url action arguments post hne
  have he : url.isEmpty = false := by
    cases url with
    | nil => exact absurd rfl hne
    | cons c cs => rfl
  unfold DLNAControlPoint.send_soap_request
  cases hpost : post url (DLNAControlPoint.buildSoapBody action arguments)
      with
  | ok s => simp [he, hpost]
  | error e => simp [he, hpost]

/-- C6 witness: the amended claim at a concrete endpoint and an oracle
answering 200. -/
theorem claim_C6_witness :
    ((DLNAControlPoint.send_soap_request (some Fixtures.url0)
        (("Play").toList) [((("Speed").toList), (("1").toList))]
        (fun _ _ => .ok 200)).ok = true ↔
      (fun _ _ => Except.ok 200 : Str → Str → Except Unit Nat)
        Fixtures.url0
        (DLNAControlPoint.buildSoapBody (("Play").toList)
          [((("Speed").toList), (("1").toList))]) = .ok 200) ∧
    (DLNAControlPoint.send_soap_request (some Fixtures.url0)
        (("Play").toList) [((("Speed").toList), (("1").toList))]
        (fun _ _ => .ok 200)).networkCalls = 1 :=
  claim_C6 Fixtures.url0 (("Play").toList)
    [((("Speed").toList), (("1").toList))] (fun _ _ => .ok 200) (by decide)

/-- C7: a stream URL ending in `.ts` selects the transport-stream protocol
info and a stream URL ending in `.m3u8` selects the playlist protocol
info, and the selected pair is embedded (between `&lt;res
protocolInfo="` and `"&gt;`) in the DIDL-Lite metadata argument of the
`SetAVTransportURI` action. -/
theorem claim_C7 :
    (∀ u : Str, DLNAControlPoint.tsSuffix.isSuffixOf u = true →
      DLNAControlPoint.protocolInfoFor u = DLNAControlPoint.tsProtocolInfo ∧
      DLNAControlPoint.setAvArguments u =
        [((("CurrentURI").toList), u),
         ((("CurrentURIMetaData").toList),
          DLNAControlPoint.metaPre ++ DLNAControlPoint.tsProtocolInfo
            ++ DLNAControlPoint.metaMid ++ u
            ++ DLNAControlPoint.metaSuf)]) ∧
    (∀ u : Str, DLNAControlPoint.m3u8Suffix.isSuffixOf u = true →
      DLNAControlPoint.protocolInfoFor u
          = DLNAControlPoint.hlsProtocolInfo ∧
      DLNAControlPoint.setAvArguments u =
        [((("CurrentURI").toList), u),
         ((("CurrentURIMetaData").toList),
          DLNAControlPoint.metaPre ++ DLNAControlPoint.hlsProtocolInfo
            ++ DLNAControlPoint.metaMid ++ u
            ++ DLNAControlPoint.metaSuf)]) := by
  constructor
  · intro u h
    have hp : DLNAControlPoint.protocolInfoFor u
        = DLNAControlPoint.tsProtocolInfo := by
      simp [DLNAControlPoint.protocolInfoFor, h]
    exact ⟨hp, by
      simp [DLNAControlPoint.setAvArguments,
        DLNAControlPoint.buildMetadata, hp]⟩
  · intro u h
    have hts := m3u8_not_ts h
    have hp : DLNAControlPoint.protocolInfoFor u
        = DLNAControlPoint.hlsProtocolInfo := by
      simp [DLNAControlPoint.protocolInfoFor, hts]
    exact ⟨hp, by
      simp [DLNAControlPoint.setAvArguments,
        DLNAControlPoint.buildMetadata, hp]⟩

/-- C7 witness: the selection at the two concrete URLs
`http://host/stream.ts` and `http://host/stream.m3u8`. -/
theorem claim_C7_witness :
    (DLNAControlPoint.protocolInfoFor Fixtures.urlTs
        = DLNAControlPoint.tsProtocolInfo ∧
      DLNAControlPoint.setAvArguments Fixtures.urlTs =
        [((("CurrentURI").toList), Fixtures.urlTs),
         ((("CurrentURIMetaData").toList),
          DLNAControlPoint.metaPre ++ DLNAControlPoint.tsProtocolInfo
            ++ DLNAControlPoint.metaMid ++ Fixtures.urlTs
            ++ DLNAControlPoint.metaSuf)]) ∧
    (DLNAControlPoint.protocolInfoFor Fixtures.urlM3u8
        = DLNAControlPoint.hlsProtocolInfo ∧
      DLNAControlPoint.setAvArguments Fixtures.urlM3u8 =
        [((("CurrentURI").toList), Fixtures.urlM3u8),
         ((("CurrentURIMetaData").toList),
          DLNAControlPoint.metaPre ++ DLNAControlPoint.hlsProtocolInfo
            ++ DLNAControlPoint.metaMid ++ Fixtures.urlM3u8
            ++ DLNAControlPoint.metaSuf)]) :=
  ⟨claim_C7.1 Fixtures.urlTs (by decide),
   claim_C7.2 Fixtures.urlM3u8 (by decide)⟩

set_option maxRecDepth 40000 in
/-- C1 counterexample: the claim that endpoint resolution never selects a
`controlURL` belonging to a different service is false.  On `c1doc` — whose
AVTransport block lists `controlURL` (`/av`) before `serviceType`, followed
by a ConnectionManager block — the resolution selects `/cm`, the
ConnectionManager service block's control path, not the AVTransport
block's own `/av`. -/
theorem claim_C1_counterexample :
    DLNAControlPoint.fetch_control_url Fixtures.c1doc
        = some (("/cm").toList) ∧
    (("/cm").toList : Str) ≠ (("/av").toList) := by
  decide

set_option maxRecDepth 40000 in
/-- C1 (amended): the resolution extracts the text between the first
`<controlURL>`/`</controlURL>` pair that occurs after (the closing tag
following) the first `serviceType` starting with the AVTransport URN: (1)
whenever it selects a control path, the selected span starts at or after
the end of that first AVTransport `serviceType` marker — so a `controlURL`
appearing earlier in the document (in particular, simply the first
`controlURL` of a document whose AVTransport block comes later) is never
selected; but when the AVTransport block itself lists `controlURL` before
`serviceType` the selected pair may belong to a following service block.
(2) On a document in the standard UPnP element order (`serviceType` before
`controlURL` inside each block) the AVTransport block's own control path
is selected even when an earlier service block has a `controlURL`. -/
theorem claim_C1 :
    (∀ (doc : Str) (p : Nat × Nat),
      DLNAControlPoint.fetch_control_url_span doc = some p →
      ∃ i, findFrom DLNAControlPoint.avLit (lowerStr doc) = some i ∧
        i + DLNAControlPoint.avLit.length ≤ p.1) ∧
    DLNAControlPoint.fetch_control_url Fixtures.c1std
      = some (("/avctl").toList) := by
  constructor
  · intro doc p h
    simp only [DLNAControlPoint.fetch_control_url_span,
      Option.bind_eq_some, Option.map_eq_some'] at h
    obtain ⟨i, h1, p2, h2, p3, h3, l, h4, hp⟩ := h
    refine ⟨i, h1, ?_⟩
    have b2 := chainFind_le h2
    have b3 := chainFind_le h3
    have : p.1 = p3 := by rw [← hp]
    omega
  · decide

set_option maxRecDepth 40000 in
/-- C1 witness: part (1) of the amended claim applied to the concrete
document `c1doc`, whose selected span starts at index 218. -/
theorem claim_C1_witness :
    ∃ i, findFrom DLNAControlPoint.avLit (lowerStr Fixtures.c1doc)
        = some i ∧
      i + DLNAControlPoint.avLit.length ≤ (218, 3).1 :=
  claim_C1.1 Fixtures.c1doc (218, 3) (by decide)

/-- C3: for every description-fetch oracle and every non-empty sequence of
datagrams all carrying the same `LOCATION` header value, discovery yields
exactly one device (with that location) in the result list, invokes the
callback exactly once (with that device), and issues exactly one
description fetch — repeats are skipped before any fetch or callback. -/
theorem claim_C3 (fetchDesc : Str → Option Str)
    (datagrams : List (Str × Str)) (loc : Str)
    (hne : datagrams ≠ [])
    (hall : ∀ d ∈ datagrams, Discovery.parsedLocation d.1 = some loc) :
    ∃ dev : Discovery.DLNADevice, dev.location = loc ∧
      (Discovery.discover_dlna_devices fetchDesc datagrams).devices
        = [dev] ∧
      (Discovery.discover_dlna_devices fetchDesc datagrams).callbackCalls
        = [dev] ∧
      (Discovery.discover_dlna_devices fetchDesc datagrams).fetchCount
        = 1 := by
  match datagrams with
  | [] => exact absurd rfl hne
  | d :: rest =>
    have hd : Discovery.parsedLocation d.1 = some loc :=
      hall d (by simp)
    have step : ∃ dev : Discovery.DLNADevice, dev.location = loc ∧
        Discovery.process_datagram fetchDesc ⟨[], [], 0, []⟩ d
          = ⟨[dev], [loc], 1, [dev]⟩ := by
      unfold Discovery.process_datagram
      rw [hd]
      simp
    obtain ⟨dev, hloc, hstep⟩ := step
    have hrest : rest.foldl (Discovery.process_datagram fetchDesc)
        (⟨[dev], [loc], 1, [dev]⟩ : Discovery.RunState)
        = ⟨[dev], [loc], 1, [dev]⟩ :=
      foldl_seen fetchDesc loc rest ⟨[dev], [loc], 1, [dev]⟩ (by simp)
        (fun e he => hall e (by simp [he]))
    refine ⟨dev, hloc, ?_, ?_, ?_⟩ <;>
      simp [Discovery.discover_dlna_devices, List.foldl_cons, hstep, hrest]

set_option maxRecDepth 40000 in
/-- C3 witness: the claim applied to two concrete SSDP datagrams that carry
the location `http://10.0.0.9:49152/desc.xml` with different header
formatting, under the always-failing description-fetch oracle. -/
theorem claim_C3_witness :
    ∃ dev : Discovery.DLNADevice, dev.location = Fixtures.loc0 ∧
      (Discovery.discover_dlna_devices Fixtures.fetchNone
          [(Fixtures.dg1, Fixtures.addr0),
           (Fixtures.dg2, Fixtures.addr0)]).devices = [dev] ∧
      (Discovery.discover_dlna_devices Fixtures.fetchNone
          [(Fixtures.dg1, Fixtures.addr0),
           (Fixtures.dg2, Fixtures.addr0)]).callbackCalls = [dev] ∧
      (Discovery.discover_dlna_devices Fixtures.fetchNone
          [(Fixtures.dg1, Fixtures.addr0),
           (Fixtures.dg2, Fixtures.addr0)]).fetchCount = 1 :=
  claim_C3 Fixtures.fetchNone
    [(Fixtures.dg1, Fixtures.addr0), (Fixtures.dg2, Fixtures.addr0)]
    Fixtures.loc0 (by decide) (by decide)

/-- C4: the code at the failing input.  A GET for a `.ts` segment that does
not exist in the output directory returns HTTP 200 with an empty body (the
chunk generator catches the file-open error after Flask has committed the
success status), not the standard 404 the claim requires; a missing
non-`.ts` file (for example the playlist) does get a standard 404 from
`send_from_directory`. -/
theorem claim_C4_eval :
    (SegmentServer.serve_hls [] (("segment_000.ts").toList)).status
        = 200 ∧
    (SegmentServer.serve_hls [] (("segment_000.ts").toList)).body = [] ∧
    (SegmentServer.serve_hls [] (("stream.m3u8").toList)).status
        = 404 := by
  decide

/-- C8: starting a session (constructing the streamer, then `start`)
leaves the output directory equal to the cleaned directory — which holds
no `*.ts` or `*.m3u8` file — at the moment the encoder child is spawned
(`start` never writes to the directory), and stopping deletes all `*.ts`
and `*.m3u8` files again. -/
theorem claim_C8 : ∀ (fs : List Str) (fps port : Nat) (m : Bool)
    (st : HLSStreamer.State) (fs2 : List Str),
    (HLSStreamer.sessionStart fs fps port m).2.1
        = HLSStreamer.cleanupSegments fs ∧
    ((HLSStreamer.sessionStart fs fps port m).2.1).filter
        (fun f => HLSStreamer.matchesTs f || HLSStreamer.matchesM3u8 f)
        = [] ∧
    (HLSStreamer.sessionStart fs fps port m).2.2
        = [HLSStreamer.StartEv.serverThreadStart,
           HLSStreamer.StartEv.ffmpegSpawn,
           HLSStreamer.StartEv.captureThreadStart] ∧
    ((HLSStreamer.stop st fs2).2).filter
        (fun f => HLSStreamer.matchesTs f || HLSStreamer.matchesM3u8 f)
        = [] := by
  intro fs fps port m st fs2
  refine ⟨rfl, cleanup_no_matches fs, rfl, cleanup_no_matches fs2⟩

/-- C9: stopping is idempotent — a second `stop` is a no-op on both the
streamer state and the output directory — and after any `stop` the
`running` flag is cleared, the encoder child (if a handle exists) is no
longer alive, and the directory holds no `*.ts` or `*.m3u8` file.  The
source swallows every exception inside `stop`, which the model reflects by
being a total function. -/
theorem claim_C9 : ∀ (st : HLSStreamer.State) (fs : List Str),
    HLSStreamer.stop (HLSStreamer.stop st fs).1 (HLSStreamer.stop st fs).2
        = HLSStreamer.stop st fs ∧
    (HLSStreamer.stop st fs).1.running = false ∧
    ((HLSStreamer.stop st fs).1.ffmpeg_process.all fun p => !p.alive)
        = true ∧
    ((HLSStreamer.stop st fs).2).filter
        (fun f => HLSStreamer.matchesTs f || HLSStreamer.matchesM3u8 f)
        = [] := by
  intro st fs
  refine ⟨?_, rfl, ?_, cleanup_no_matches fs⟩
  · unfold HLSStreamer.stop
    simp [Option.map_map, cleanup_idem, Function.comp]
    rfl
  · unfold HLSStreamer.stop
    cases st.ffmpeg_process <;> rfl

/-- C10: calling `start` on a streamer whose `running` flag is already set
returns immediately: the streamer state and the output directory are
unchanged and no side effect (server thread, encoder spawn, capture
thread) occurs. -/
theorem claim_C10 : ∀ (st : HLSStreamer.State) (fs : List Str),
    st.running = true → HLSStreamer.start st fs = (st, fs, []) := by
  intro st fs h
  unfold HLSStreamer.start
  simp [h]

/-- C10 witness: `start` on a concrete already-running streamer. -/
theorem claim_C10_witness :
    HLSStreamer.start Fixtures.runningStreamer []
        = (Fixtures.runningStreamer, [], []) :=
  claim_C10 Fixtures.runningStreamer [] rfl

end DlnaSharing
